import Mathlib

/-!
Verification of the rx-rust reactive-event engine.

This file shallowly embeds the event model, the subject (multicast hub)
machinery, the subscription/disposal lifecycle and the delay operator of the
repository, and proves the stated properties about them.

The source holds several generations of the same design.  The event model of
src/src/observer/event.rs names the cancellation terminal Unsubscribed; the
generation in src/src/observer/mod.rs names the same variant Cancelled.  The
subject and subscription code compiles against the event.rs generation, so the
main embedding uses those names; the observer/mod.rs generation is embedded
separately for its map functions.
-/

/-- Terminated, from src/src/observer/event.rs: Error(E), Unsubscribed,
Completed.  The spec calls the Unsubscribed variant Cancelled. -/
inductive Terminated (E : Type) where
  | error : E → Terminated E
  | unsubscribed : Terminated E
  | completed : Terminated E
deriving DecidableEq

/-- Event, from src/src/observer/event.rs: Next(T) or Terminated(Terminated). -/
inductive Event (T E : Type) where
  | next : T → Event T E
  | terminated : Terminated E → Event T E
deriving DecidableEq

/-- Whether an event is a terminal event. -/
def Event.isTerminal {T E : Type} : Event T E → Bool
  | Event.next _ => false
  | Event.terminated _ => true

/-- Event::map_value from src/src/observer/event.rs: maps the value of a Next
event with f and leaves Terminated events untouched. -/
def Event.map_value {T E T2 : Type} (e : Event T E) (f : T → T2) : Event T2 E :=
  match e with
  | Event.next value => Event.next (f value)
  | Event.terminated tm => Event.terminated tm

/-- Event::map_error from src/src/observer/event.rs: maps the error of a
Terminated::Error event with f and leaves Next payloads untouched. -/
def Event.map_error {T E E2 : Type} (e : Event T E) (f : E → E2) : Event T E2 :=
  match e with
  | Event.next value => Event.next value
  | Event.terminated tm =>
    match tm with
    | Terminated.error err => Event.terminated (Terminated.error (f err))
    | Terminated.unsubscribed => Event.terminated Terminated.unsubscribed
    | Terminated.completed => Event.terminated Terminated.completed

namespace ObserverMod

/-- Terminated from the src/src/observer/mod.rs generation: Error(E),
Cancelled, Completed. -/
inductive Terminated (E : Type) where
  | error : E → Terminated E
  | cancelled : Terminated E
  | completed : Terminated E
deriving DecidableEq

/-- Event from the src/src/observer/mod.rs generation. -/
inductive Event (T E : Type) where
  | next : T → Event T E
  | terminated : Terminated E → Event T E
deriving DecidableEq

/-- Event::map_next from src/src/observer/mod.rs. -/
def Event.map_next {T E T2 : Type} (e : Event T E) (f : T → T2) : Event T2 E :=
  match e with
  | Event.next value => Event.next (f value)
  | Event.terminated tm => Event.terminated tm

/-- Event::map_error from src/src/observer/mod.rs. -/
def Event.map_error {T E E2 : Type} (e : Event T E) (f : E → E2) : Event T E2 :=
  match e with
  | Event.next value => Event.next value
  | Event.terminated tm =>
    match tm with
    | Terminated.error err => Event.terminated (Terminated.error (f err))
    | Terminated.cancelled => Event.terminated Terminated.cancelled
    | Terminated.completed => Event.terminated Terminated.completed

end ObserverMod

/-- The observable state of one downstream observer: the log of events it has
received (a recording observer, as src/src/utils/checking_observer.rs keeps)
together with its per-observer terminated flag (the RwLock<bool> that
CheckingObserver and AnonymousObserver carry and that terminated() /
set_terminated() read and write). -/
structure ObsState (T E : Type) where
  log : List (Event T E)
  terminated : Bool
deriving DecidableEq

/-- Modelled from the spec: Observer::notify_if_unterminated is called
throughout src/ (base_subject.rs, behavior_subject.rs, subscription/mod.rs)
but its definition, a provided method of the Observer trait, is not among the
source files.  Per spec section 4.5, a recipient observer is only ever given
the event if it has not itself already terminated, enforced by a per-observer
terminated flag checked and set atomically relative to delivery: the flag is
checked, set when the event is terminal, and the event is then delivered. -/
def notifyIfUnterminated {T E : Type} (o : ObsState T E) (e : Event T E) :
    ObsState T E :=
  if o.terminated then o
  else { log := o.log ++ [e], terminated := e.isTerminal }

/-- The state of a BaseSubject (src/src/subject/base_subject.rs) together with
every observer that was ever subscribed to it.  `store` maps the registration
key (the usize pointer key of ObserversMap) to the observer's state; keys in
`registry` are the currently registered ones (the HashMap entries); `disposed`
records the subscriptions whose one-shot Disposal has already run;
`terminated` is the subject's own RwLock<bool> flag. -/
structure BaseSubjectSys (T E : Type) where
  nextKey : Nat
  store : List (Nat × ObsState T E)
  registry : List Nat
  terminated : Bool
  disposed : List Nat
deriving DecidableEq

/-- Deliver an event, via notify_if_unterminated, to every stored observer
whose key lies in `keys` (BaseSubject::on iterates observers.values()). -/
def storeNotify {T E : Type} (store : List (Nat × ObsState T E))
    (keys : List Nat) (e : Event T E) : List (Nat × ObsState T E) :=
  store.map (fun p => if p.1 ∈ keys then (p.1, notifyIfUnterminated p.2 e) else p)

/-- BaseSubject::subscribe: insert the observer into the registry under a
fresh key.  The Subscription it returns is modelled by the key. -/
def subjectSubscribe {T E : Type} (s : BaseSubjectSys T E) (o : ObsState T E) :
    BaseSubjectSys T E :=
  { s with
    nextKey := s.nextKey + 1
    store := s.store ++ [(s.nextKey, o)]
    registry := s.registry ++ [s.nextKey] }

/-- BaseSubject::on: fan the event out to every currently registered observer
through notify_if_unterminated. -/
def subjectOn {T E : Type} (s : BaseSubjectSys T E) (e : Event T E) :
    BaseSubjectSys T E :=
  { s with store := storeNotify s.store s.registry e }

/-- Upstream emission into the subject: the subject is itself notified through
notify_if_unterminated (the entry point every test in base_subject.rs uses),
so its own terminated flag is checked, set when the event is terminal, and
BaseSubject::on then fans the event out. -/
def subjectNotify {T E : Type} (s : BaseSubjectSys T E) (e : Event T E) :
    BaseSubjectSys T E :=
  if s.terminated then s
  else { subjectOn s e with terminated := e.isTerminal }

/-- Disposing the Subscription returned by BaseSubject::subscribe for key k:
the one-shot Disposal guard makes a second disposal a no-op; otherwise the
disposal action removes the key from the registry and Subscription::new then
notifies the observer with Terminated::Unsubscribed if it is unterminated. -/
def subjectUnsubscribe {T E : Type} (s : BaseSubjectSys T E) (k : Nat) :
    BaseSubjectSys T E :=
  if k ∈ s.disposed then s
  else
    { s with
      registry := s.registry.erase k
      store := storeNotify s.store [k] (Event.terminated Terminated.unsubscribed)
      disposed := k :: s.disposed }

/-- One interaction with a subject: subscribe a fresh observer, emit an event
from upstream, or dispose the subscription of key k. -/
inductive SubjectCmd (T E : Type) where
  | subscribe : SubjectCmd T E
  | emit : Event T E → SubjectCmd T E
  | unsubscribe : Nat → SubjectCmd T E
deriving DecidableEq

/-- Interpret one command on a BaseSubject system. -/
def subjectStep {T E : Type} (s : BaseSubjectSys T E) :
    SubjectCmd T E → BaseSubjectSys T E
  | SubjectCmd.subscribe => subjectSubscribe s { log := [], terminated := false }
  | SubjectCmd.emit e => subjectNotify s e
  | SubjectCmd.unsubscribe k => subjectUnsubscribe s k

/-- The fresh BaseSubject of BaseSubject::new. -/
def subjectInit {T E : Type} : BaseSubjectSys T E :=
  { nextKey := 0, store := [], registry := [], terminated := false, disposed := [] }

/-- Run a command sequence against a fresh BaseSubject. -/
def subjectRun {T E : Type} (cmds : List (SubjectCmd T E)) : BaseSubjectSys T E :=
  cmds.foldl subjectStep subjectInit

/-- The state of a BehaviorSubject (src/src/subject/behavior_subject.rs): a
BaseSubject plus the current value cell and the remembered terminal state. -/
structure BehaviorSys (T E : Type) where
  base : BaseSubjectSys T E
  value : T
  termState : Option (Terminated E)
deriving DecidableEq

/-- BehaviorSubject::on: record the value or the terminal state, then forward
the event to BaseSubject::on for fan-out.  (The assert that terminal_state was
still None holds on all reachable states because upstream events arrive
through notify_if_unterminated, whose flag check admits one terminal.) -/
def behaviorOn {T E : Type} (s : BehaviorSys T E) (e : Event T E) :
    BehaviorSys T E :=
  match e with
  | Event.next v => { s with value := v, base := subjectOn s.base e }
  | Event.terminated t => { s with termState := some t, base := subjectOn s.base e }

/-- Upstream emission into a BehaviorSubject through notify_if_unterminated:
terminated() and set_terminated() delegate to the inner BaseSubject flag. -/
def behaviorNotify {T E : Type} (s : BehaviorSys T E) (e : Event T E) :
    BehaviorSys T E :=
  if s.base.terminated then s
  else
    let s1 := behaviorOn s e
    { s1 with base := { s1.base with terminated := e.isTerminal } }

/-- BehaviorSubject::subscribe: first send the new observer
Next(current value) through notify_if_unterminated, then register it with
BaseSubject::subscribe. -/
def behaviorSubscribe {T E : Type} (s : BehaviorSys T E) : BehaviorSys T E :=
  let o := notifyIfUnterminated { log := [], terminated := false }
    (Event.next s.value)
  { s with base := subjectSubscribe s.base o }

/-- Interpret one command on a BehaviorSubject system. -/
def behaviorStep {T E : Type} (s : BehaviorSys T E) :
    SubjectCmd T E → BehaviorSys T E
  | SubjectCmd.subscribe => behaviorSubscribe s
  | SubjectCmd.emit e => behaviorNotify s e
  | SubjectCmd.unsubscribe k => { s with base := subjectUnsubscribe s.base k }

/-- Run a command sequence against BehaviorSubject::new(seed). -/
def behaviorRun {T E : Type} (seed : T) (cmds : List (SubjectCmd T E)) :
    BehaviorSys T E :=
  cmds.foldl behaviorStep { base := subjectInit, value := seed, termState := none }

/-- One step of the trace a Subscription's disposal produces: the user-supplied
disposal action running, or an event being delivered to the guarded observer. -/
inductive SubEffect (T E : Type) where
  | disposalAction : SubEffect T E
  | delivered : Event T E → SubEffect T E
deriving DecidableEq

/-- The body of the cleanup closure built by Subscription::new
(src/src/subscription/mod.rs): run disposal_action(), then, if the observer is
not terminated, notify it with Event::Terminated(Terminated::Unsubscribed)
through notify_if_unterminated.  Returns the observer state afterwards and the
ordered trace of effects. -/
def disposalBody {T E : Type} (o : ObsState T E) :
    ObsState T E × List (SubEffect T E) :=
  if o.terminated then (o, [SubEffect.disposalAction])
  else
    (notifyIfUnterminated o (Event.terminated Terminated.unsubscribed),
     [SubEffect.disposalAction,
      SubEffect.delivered (Event.terminated Terminated.unsubscribed)])

/-- A Subscription (src/src/subscription/mod.rs) guarding one observer: `live`
models Disposal.action being Some (src/src/utils/disposal.rs keeps the cleanup
closure in an Option and takes it on drop), and `trace` accumulates the
effects the cleanup has produced. -/
structure SubscriptionSys (T E : Type) where
  obs : ObsState T E
  live : Bool
  trace : List (SubEffect T E)
deriving DecidableEq

/-- Subscription::new: the observer is guarded, the Disposal holds the cleanup
closure, nothing has run yet. -/
def subscriptionNew {T E : Type} (o : ObsState T E) : SubscriptionSys T E :=
  { obs := o, live := true, trace := [] }

/-- One disposal trigger (explicit unsubscribe(), or Drop at scope exit): both
reach Disposal::drop, which takes the Option-held action and runs it only if
it was still present. -/
def disposeStep {T E : Type} (s : SubscriptionSys T E) : SubscriptionSys T E :=
  if s.live then
    { obs := (disposalBody s.obs).1
      live := false
      trace := s.trace ++ (disposalBody s.obs).2 }
  else s

/-- Fire n disposal triggers in sequence. -/
def runDisposeTriggers {T E : Type} (s : SubscriptionSys T E) : Nat → SubscriptionSys T E
  | 0 => s
  | n + 1 => runDisposeTriggers (disposeStep s) n

/-- Whether an effect is the user-supplied disposal action running. -/
def SubEffect.isAction {T E : Type} : SubEffect T E → Bool
  | SubEffect.disposalAction => true
  | SubEffect.delivered _ => false

/-- How many times the user-supplied disposal action has run (a disposal
action backed by a counter would hold this number). -/
def actionCount {T E : Type} (s : SubscriptionSys T E) : Nat :=
  s.trace.countP SubEffect.isAction

/-- Terminal from the src/src/operators/delay.rs generation of the observer
contract.  Modelled from the spec: its declaration (an observer/mod.rs from
that generation) is not among the source files; the exhaustive two-arm match
in DelayObserver::on_terminal fixes its variants as Error(E) and Completed. -/
inductive Terminal (E : Type) where
  | error : E → Terminal E
  | completed : Terminal E
deriving DecidableEq

/-- A call the downstream observer of the delay operator has received:
on_next(v) or on_terminal(t). -/
inductive DownEvent (T E : Type) where
  | next : T → DownEvent T E
  | terminal : Terminal E → DownEvent T E
deriving DecidableEq

/-- The body of a task the DelayObserver hands to the scheduler: deliver a
value downstream, or deliver the Completed terminal downstream. -/
inductive DelayTask (T E : Type) where
  | deliverNext : T → DelayTask T E
  | deliverTerminal : Terminal E → DelayTask T E
deriving DecidableEq

/-- The DelayObserver of src/src/operators/delay.rs.  `downstreamAlive` models
the Arc<Mutex<Option<U>>> cell still holding the downstream observer (the
field the source calls upstream_observer); `delivered` is the log of calls the
downstream observer has received; `delay` is the configured duration;
`pending` records each task handed to the scheduler together with the delay it
was scheduled with (the disposals vec tracks their cancel tokens). -/
structure DelayObserverSys (T E : Type) where
  downstreamAlive : Bool
  delivered : List (DownEvent T E)
  delay : Nat
  pending : List (Nat × DelayTask T E)
deriving DecidableEq

/-- DelayObserver::on_next: build a task that will deliver the value to the
downstream observer, hand it to the scheduler with Some(self.delay), and push
its cancel token; nothing is delivered downstream within this call. -/
def delayOnNext {T E : Type} (s : DelayObserverSys T E) (v : T) :
    DelayObserverSys T E :=
  { s with pending := s.pending ++ [(s.delay, DelayTask.deliverNext v)] }

/-- DelayObserver::on_terminal: a Terminal::Error is delivered to the
downstream observer immediately within the same call (taking it out of the
cell), while Terminal::Completed is handed to the scheduler with
Some(self.delay) like a value.  (The take().unwrap() on the error path panics
if the cell is empty; that is unreachable under the observer contract, so the
empty-cell case leaves the state unchanged.) -/
def delayOnTerminal {T E : Type} (s : DelayObserverSys T E) (t : Terminal E) :
    DelayObserverSys T E :=
  match t with
  | Terminal.error e =>
    if s.downstreamAlive then
      { s with
        downstreamAlive := false
        delivered := s.delivered ++ [DownEvent.terminal (Terminal.error e)] }
    else s
  | Terminal.completed =>
    { s with pending := s.pending ++ [(s.delay, DelayTask.deliverTerminal Terminal.completed)] }

/-- Running one scheduled task: the next-value task locks the cell and calls
on_next if the observer is still there; the completed task takes the observer
out and calls on_terminal on it. -/
def runDelayTask {T E : Type} (s : DelayObserverSys T E) (t : DelayTask T E) :
    DelayObserverSys T E :=
  match t with
  | DelayTask.deliverNext v =>
    if s.downstreamAlive then
      { s with delivered := s.delivered ++ [DownEvent.next v] }
    else s
  | DelayTask.deliverTerminal tm =>
    if s.downstreamAlive then
      { s with
        downstreamAlive := false
        delivered := s.delivered ++ [DownEvent.terminal tm] }
    else s

/-- A log that holds no terminal event. -/
def noTerminalB {T E : Type} (l : List (Event T E)) : Bool :=
  l.all (fun e => !e.isTerminal)

/-- Well-formedness of one observer: either its flag is unset and its log
holds no terminal event, or its flag is set and its log is some prefix of
non-terminal events followed by exactly one terminal event. -/
def obsOk {T E : Type} (o : ObsState T E) : Prop :=
  (o.terminated = false ∧ noTerminalB o.log = true) ∨
  (∃ l t, o.terminated = true ∧ o.log = l ++ [Event.terminated t] ∧
    noTerminalB l = true)

theorem obsOk_notify {T E : Type} (o : ObsState T E) (e : Event T E)
    (h : obsOk o) : obsOk (notifyIfUnterminated o e) := by
  unfold notifyIfUnterminated
  rcases h with ⟨hf, hn⟩ | ⟨l, t, hf, hl, hn⟩
  · rw [hf]
    simp only [Bool.false_eq_true, if_false]
    cases e with
    | next v =>
      left
      refine ⟨rfl, ?_⟩
      simp [noTerminalB, Event.isTerminal] at hn ⊢
      exact hn
    | terminated t =>
      right
      exact ⟨o.log, t, rfl, rfl, hn⟩
  · rw [hf]
    simp only [if_true]
    exact Or.inr ⟨l, t, hf, hl, hn⟩

theorem obsOk_terminal_last {T E : Type} (o : ObsState T E) (h : obsOk o)
    (l₁ : List (Event T E)) (t : Terminated E) (l₂ : List (Event T E))
    (hlog : o.log = l₁ ++ Event.terminated t :: l₂) : l₂ = [] := by
  rcases h with ⟨hf, hn⟩ | ⟨l, t', hf, hl, hn⟩
  · exfalso
    rw [hlog] at hn
    simp [noTerminalB, List.all_eq_true] at hn
    have := hn.2.1
    simp [Event.isTerminal] at this
  · rcases List.eq_nil_or_concat l₂ with h2 | ⟨l₂x, z, h2⟩
    · exact h2
    · exfalso
      subst h2
      rw [hlog] at hl
      have heq : (l₁ ++ Event.terminated t :: l₂x) ++ [z] =
          l ++ [Event.terminated t'] := by
        simpa using hl
      have h3 := List.append_inj' heq rfl
      have hmem : Event.terminated t ∈ l := by
        rw [← h3.1]; simp
      simp [noTerminalB, List.all_eq_true] at hn
      have := hn (Event.terminated t) hmem
      simp [Event.isTerminal] at this

/-- Well-formedness of every observer a subject system has ever seen. -/
def sysOk {T E : Type} (s : BaseSubjectSys T E) : Prop :=
  ∀ p ∈ s.store, obsOk p.2

theorem sysOk_storeNotify {T E : Type} (store : List (Nat × ObsState T E))
    (keys : List Nat) (e : Event T E) (h : ∀ p ∈ store, obsOk p.2) :
    ∀ p ∈ storeNotify store keys e, obsOk p.2 := by
  intro p hp
  have hp2 : p ∈ store.map
      (fun q => if q.1 ∈ keys then (q.1, notifyIfUnterminated q.2 e) else q) := hp
  rcases List.mem_map.mp hp2 with ⟨q, hq, rfl⟩
  by_cases hk : q.1 ∈ keys
  · simp only [if_pos hk]
    exact obsOk_notify _ _ (h q hq)
  · simp only [if_neg hk]
    exact h q hq

theorem sysOk_step {T E : Type} (s : BaseSubjectSys T E) (c : SubjectCmd T E)
    (h : sysOk s) : sysOk (subjectStep s c) := by
  cases c with
  | subscribe =>
    intro p hp
    rcases List.mem_append.mp hp with h1 | h1
    · exact h p h1
    · simp at h1
      subst h1
      exact Or.inl ⟨rfl, rfl⟩
  | emit e =>
    show sysOk (subjectNotify s e)
    unfold subjectNotify
    by_cases ht : s.terminated = true
    · simp only [ht, if_true]
      exact h
    · simp only [ht, if_false]
      intro p hp
      exact sysOk_storeNotify s.store s.registry e h p hp
  | unsubscribe k =>
    show sysOk (subjectUnsubscribe s k)
    unfold subjectUnsubscribe
    by_cases hk : k ∈ s.disposed
    · simp only [if_pos hk]
      exact h
    · simp only [if_neg hk]
      intro p hp
      exact sysOk_storeNotify s.store [k] _ h p hp

theorem sysOk_foldl {T E : Type} (cmds : List (SubjectCmd T E))
    (s : BaseSubjectSys T E) (h : sysOk s) :
    sysOk (cmds.foldl subjectStep s) := by
  induction cmds generalizing s with
  | nil => exact h
  | cons c cmds ih => exact ih _ (sysOk_step s c h)

theorem sysOk_subjectRun {T E : Type} (cmds : List (SubjectCmd T E)) :
    sysOk (subjectRun cmds) := by
  apply sysOk_foldl
  intro p hp
  simp [subjectInit] at hp

/-- C1: for every subscription (every Observable/Observer pair), across any
sequence of emitted events, at most one terminal event is ever delivered to
the observer, it is always the last event delivered, and no Next event is
delivered after it: in any reachable state of the subject system, any
occurrence of a terminal event in an observer's delivery log is the final
entry of that log. -/
theorem subject_terminal_is_last {T E : Type} (cmds : List (SubjectCmd T E))
    (k : Nat) (o : ObsState T E) (hmem : (k, o) ∈ (subjectRun cmds).store)
    (l₁ : List (Event T E)) (t : Terminated E) (l₂ : List (Event T E))
    (hlog : o.log = l₁ ++ Event.terminated t :: l₂) : l₂ = [] :=
  obsOk_terminal_last o (sysOk_subjectRun cmds (k, o) hmem) l₁ t l₂ hlog

/-- Witness for C1: in the run subscribing one observer and emitting Next 1
then Completed, the observer's log is Next 1 followed by the terminal, and
the theorem yields that nothing follows the terminal. -/
theorem subject_terminal_is_last_witness :
    ((0, ({ log := [Event.next 1, Event.terminated Terminated.completed],
            terminated := true } : ObsState Nat Nat)) ∈
      (subjectRun (T:=Nat) (E:=Nat)
        [SubjectCmd.subscribe, SubjectCmd.emit (Event.next 1),
         SubjectCmd.emit (Event.terminated Terminated.completed)]).store) ∧
    ([] : List (Event Nat Nat)) = [] :=
  ⟨by decide,
   subject_terminal_is_last
     [SubjectCmd.subscribe, SubjectCmd.emit (Event.next 1),
      SubjectCmd.emit (Event.terminated Terminated.completed)]
     0
     { log := [Event.next 1, Event.terminated Terminated.completed],
       terminated := true }
     (by decide) [Event.next 1] Terminated.completed [] (by decide)⟩

/-- C4: once the subject's terminated flag has been set, a further Next event
from upstream is not accepted: the whole system state, and so every
registered observer's log, is unchanged by the emission. -/
theorem subject_terminated_rejects_next {T E : Type}
    (cmds : List (SubjectCmd T E)) (h : (subjectRun cmds).terminated = true)
    (x : T) :
    subjectRun (cmds ++ [SubjectCmd.emit (Event.next x)]) = subjectRun cmds := by
  unfold subjectRun
  rw [List.foldl_append, List.foldl_cons, List.foldl_nil]
  show subjectNotify (subjectRun cmds) (Event.next x) = subjectRun cmds
  unfold subjectNotify
  rw [if_pos h]

/-- Witness for C4: after emitting Completed the subject is terminated, and
emitting Next 7 afterwards leaves the system unchanged. -/
theorem subject_terminated_rejects_next_witness :
    (subjectRun (T:=Nat) (E:=Nat)
      [SubjectCmd.subscribe,
       SubjectCmd.emit (Event.terminated Terminated.completed)]).terminated
      = true ∧
    subjectRun (T:=Nat) (E:=Nat)
      ([SubjectCmd.subscribe,
        SubjectCmd.emit (Event.terminated Terminated.completed)] ++
       [SubjectCmd.emit (Event.next 7)]) =
    subjectRun (T:=Nat) (E:=Nat)
      [SubjectCmd.subscribe,
       SubjectCmd.emit (Event.terminated Terminated.completed)] :=
  ⟨by decide,
   subject_terminated_rejects_next
     [SubjectCmd.subscribe,
      SubjectCmd.emit (Event.terminated Terminated.completed)]
     (by decide) 7⟩

/-- C5: with two subscribers, emitting Next 1, Next 2 and then Completed
through the subject fans every event out to both registered observers: both
recorded logs equal Next 1, Next 2, Completed. -/
theorem subject_multicast_fanout :
    (subjectRun (T:=Nat) (E:=Nat)
      [SubjectCmd.subscribe, SubjectCmd.subscribe,
       SubjectCmd.emit (Event.next 1), SubjectCmd.emit (Event.next 2),
       SubjectCmd.emit (Event.terminated Terminated.completed)]).store =
    [(0, { log := [Event.next 1, Event.next 2,
                   Event.terminated Terminated.completed], terminated := true }),
     (1, { log := [Event.next 1, Event.next 2,
                   Event.terminated Terminated.completed], terminated := true })] := by
  decide

/-- C6: for a Behavior Subject that has not terminated, subscribing a new
observer synchronously sends it Next(current value) before registering it for
future events (the new registry entry already carries exactly that snapshot in
its log); and in the scenario seed 0, subscribe A, emit Next 1, subscribe B,
emit Completed, log A is Next 0, Next 1, Completed and log B is Next 1,
Completed. -/
theorem behavior_subject_replay :
    (∀ (T E : Type) (seed : T) (cmds : List (SubjectCmd T E)),
      (behaviorRun seed cmds).base.terminated = false →
      (behaviorSubscribe (behaviorRun seed cmds)).base.store =
        (behaviorRun seed cmds).base.store ++
          [((behaviorRun seed cmds).base.nextKey,
            { log := [Event.next (behaviorRun seed cmds).value],
              terminated := false })]) ∧
    (behaviorRun (T:=Nat) (E:=Nat) 0
      [SubjectCmd.subscribe, SubjectCmd.emit (Event.next 1),
       SubjectCmd.subscribe,
       SubjectCmd.emit (Event.terminated Terminated.completed)]).base.store =
    [(0, { log := [Event.next 0, Event.next 1,
                   Event.terminated Terminated.completed], terminated := true }),
     (1, { log := [Event.next 1, Event.terminated Terminated.completed],
           terminated := true })] := by
  constructor
  · intro T E seed cmds _h
    simp [behaviorSubscribe, subjectSubscribe, notifyIfUnterminated,
      Event.isTerminal]
  · decide

/-- Witness for C6: a fresh Behavior Subject seeded with 5 is unterminated,
and subscribing records the snapshot Next 5 as the new observer's log. -/
theorem behavior_subject_replay_witness :
    (behaviorRun (T:=Nat) (E:=Nat) 5 []).base.terminated = false ∧
    (behaviorSubscribe (behaviorRun (T:=Nat) (E:=Nat) 5 [])).base.store =
      (behaviorRun (T:=Nat) (E:=Nat) 5 []).base.store ++
        [((behaviorRun (T:=Nat) (E:=Nat) 5 []).base.nextKey,
          { log := [Event.next (behaviorRun (T:=Nat) (E:=Nat) 5 []).value],
            terminated := false })] :=
  ⟨by decide, behavior_subject_replay.1 Nat Nat 5 [] (by decide)⟩

/-- C7 counterexample: seed a Behavior Subject with 0 and terminate it with
Completed, so the subject has terminated and remembers the Completed terminal;
subscribing a new observer then delivers Next 0 to it (not the remembered
terminal) and registers it, so its log never holds the remembered terminal
event; the claim that the new observer is sent the remembered terminal event
instead of being registered is false on this input. -/
theorem behavior_late_subscribe_counterexample :
    (behaviorRun (T:=Nat) (E:=Nat) 0
      [SubjectCmd.emit (Event.terminated Terminated.completed),
       SubjectCmd.subscribe]).base.terminated = true ∧
    (behaviorRun (T:=Nat) (E:=Nat) 0
      [SubjectCmd.emit (Event.terminated Terminated.completed),
       SubjectCmd.subscribe]).termState = some Terminated.completed ∧
    (behaviorRun (T:=Nat) (E:=Nat) 0
      [SubjectCmd.emit (Event.terminated Terminated.completed),
       SubjectCmd.subscribe]).base.store =
      [(0, { log := [Event.next 0], terminated := false })] ∧
    (behaviorRun (T:=Nat) (E:=Nat) 0
      [SubjectCmd.emit (Event.terminated Terminated.completed),
       SubjectCmd.subscribe]).base.registry = [0] ∧
    ¬ ((0, ({ log := [Event.terminated Terminated.completed],
              terminated := true } : ObsState Nat Nat)) ∈
        (behaviorRun (T:=Nat) (E:=Nat) 0
          [SubjectCmd.emit (Event.terminated Terminated.completed),
           SubjectCmd.subscribe]).base.store) := by
  refine ⟨by decide, by decide, by decide, by decide, by decide⟩

/-- C7 amended: for a Behavior Subject that has already terminated,
subscribing a new observer still sends it Next(current value) and registers
it in the registry; the remembered terminal event is not replayed. -/
theorem behavior_late_subscribe_registers {T E : Type} (seed : T)
    (cmds : List (SubjectCmd T E))
    (_h : (behaviorRun seed cmds).base.terminated = true) :
    (behaviorSubscribe (behaviorRun seed cmds)).base.store =
      (behaviorRun seed cmds).base.store ++
        [((behaviorRun seed cmds).base.nextKey,
          { log := [Event.next (behaviorRun seed cmds).value],
            terminated := false })] ∧
    (behaviorSubscribe (behaviorRun seed cmds)).base.registry =
      (behaviorRun seed cmds).base.registry ++
        [(behaviorRun seed cmds).base.nextKey] := by
  constructor
  · simp [behaviorSubscribe, subjectSubscribe, notifyIfUnterminated,
      Event.isTerminal]
  · rfl

/-- Witness for C7 amended: applied to the terminated subject of the
counterexample scenario before its late subscribe. -/
theorem behavior_late_subscribe_registers_witness :
    (behaviorRun (T:=Nat) (E:=Nat) 0
      [SubjectCmd.emit (Event.terminated Terminated.completed)]).base.terminated
      = true ∧
    ((behaviorSubscribe (behaviorRun (T:=Nat) (E:=Nat) 0
        [SubjectCmd.emit (Event.terminated Terminated.completed)])).base.store =
      (behaviorRun (T:=Nat) (E:=Nat) 0
        [SubjectCmd.emit (Event.terminated Terminated.completed)]).base.store ++
        [((behaviorRun (T:=Nat) (E:=Nat) 0
            [SubjectCmd.emit (Event.terminated Terminated.completed)]).base.nextKey,
          { log := [Event.next (behaviorRun (T:=Nat) (E:=Nat) 0
              [SubjectCmd.emit (Event.terminated Terminated.completed)]).value],
            terminated := false })] ∧
    (behaviorSubscribe (behaviorRun (T:=Nat) (E:=Nat) 0
        [SubjectCmd.emit (Event.terminated Terminated.completed)])).base.registry =
      (behaviorRun (T:=Nat) (E:=Nat) 0
        [SubjectCmd.emit (Event.terminated Terminated.completed)]).base.registry ++
        [(behaviorRun (T:=Nat) (E:=Nat) 0
          [SubjectCmd.emit (Event.terminated Terminated.completed)]).base.nextKey]) :=
  ⟨by decide, behavior_late_subscribe_registers 0
    [SubjectCmd.emit (Event.terminated Terminated.completed)] (by decide)⟩

theorem runDisposeTriggers_dead {T E : Type} (s : SubscriptionSys T E)
    (h : s.live = false) (n : Nat) : runDisposeTriggers s n = s := by
  induction n with
  | zero => rfl
  | succ n ih =>
    show runDisposeTriggers (disposeStep s) n = s
    rw [show disposeStep s = s by simp [disposeStep, h]]
    exact ih

theorem disposeStep_new {T E : Type} (o : ObsState T E) :
    disposeStep (subscriptionNew o) =
      { obs := (disposalBody o).1, live := false, trace := (disposalBody o).2 } := by
  simp [disposeStep, subscriptionNew]

/-- C2: disposing a Subscription (by explicit unsubscribe or by drop) while
the attached observer has not yet received a terminal event delivers exactly
one synthetic terminal event to that observer as part of disposal, and that
terminal is Terminated::Unsubscribed (the spec's Cancelled), never an Error:
however many disposal triggers fire, the whole cleanup trace holds exactly the
disposal action and one delivery of the Unsubscribed terminal, and the
observer's log is extended by exactly that one terminal. -/
theorem subscription_dispose_synthesizes_cancelled {T E : Type}
    (o : ObsState T E) (h : o.terminated = false) (n : Nat) (hn : 1 ≤ n) :
    (runDisposeTriggers (subscriptionNew o) n).trace =
      [SubEffect.disposalAction,
       SubEffect.delivered (Event.terminated Terminated.unsubscribed)] ∧
    (runDisposeTriggers (subscriptionNew o) n).obs.log =
      o.log ++ [Event.terminated Terminated.unsubscribed] := by
  obtain ⟨m, rfl⟩ : ∃ m, n = m + 1 := ⟨n - 1, by omega⟩
  show (runDisposeTriggers (disposeStep (subscriptionNew o)) m).trace = _ ∧
    (runDisposeTriggers (disposeStep (subscriptionNew o)) m).obs.log = _
  rw [disposeStep_new, runDisposeTriggers_dead _ rfl m]
  simp [disposalBody, h, notifyIfUnterminated]

/-- Witness for C2: one disposal trigger on a fresh unterminated observer
produces the disposal action followed by the one Unsubscribed terminal. -/
theorem subscription_dispose_synthesizes_cancelled_witness :
    ((⟨[], false⟩ : ObsState Nat Nat).terminated = false ∧ 1 ≤ 1) ∧
    ((runDisposeTriggers (subscriptionNew (⟨[], false⟩ : ObsState Nat Nat)) 1).trace =
      [SubEffect.disposalAction,
       SubEffect.delivered (Event.terminated Terminated.unsubscribed)] ∧
    (runDisposeTriggers (subscriptionNew (⟨[], false⟩ : ObsState Nat Nat)) 1).obs.log =
      ([] : List (Event Nat Nat)) ++ [Event.terminated Terminated.unsubscribed]) :=
  ⟨⟨by decide, by decide⟩,
   subscription_dispose_synthesizes_cancelled ⟨[], false⟩ (by decide) 1 (by decide)⟩

/-- C3: the cleanup of a Subscription executes exactly once in total across
any number of disposal triggers (explicit unsubscribe, scope-exit drop, or a
drop following an explicit unsubscribe): the user disposal action's run count
never exceeds 1, and equals 1 as soon as at least one trigger has fired. -/
theorem disposal_cleanup_at_most_once {T E : Type} (o : ObsState T E) (n : Nat) :
    actionCount (runDisposeTriggers (subscriptionNew o) n) ≤ 1 ∧
    (1 ≤ n → actionCount (runDisposeTriggers (subscriptionNew o) n) = 1) := by
  have hcount : actionCount
      { obs := (disposalBody o).1, live := false, trace := (disposalBody o).2 } = 1 := by
    by_cases ht : o.terminated = true <;>
      simp [actionCount, disposalBody, ht, SubEffect.isAction]
  cases n with
  | zero =>
    constructor
    · show actionCount (subscriptionNew o) ≤ 1
      simp [actionCount, subscriptionNew]
    · intro hx
      omega
  | succ m =>
    have hrun : runDisposeTriggers (subscriptionNew o) (m + 1) =
        { obs := (disposalBody o).1, live := false, trace := (disposalBody o).2 } := by
      show runDisposeTriggers (disposeStep (subscriptionNew o)) m = _
      rw [disposeStep_new, runDisposeTriggers_dead _ rfl m]
    rw [hrun, hcount]
    exact ⟨le_refl 1, fun _ => rfl⟩

/-- Witness for C3: two triggers (an unsubscribe followed by the drop) still
run the cleanup exactly once. -/
theorem disposal_cleanup_at_most_once_witness :
    actionCount (runDisposeTriggers (subscriptionNew
        (⟨[], false⟩ : ObsState Nat Nat)) 2) ≤ 1 ∧
    (1 ≤ 2 → actionCount (runDisposeTriggers (subscriptionNew
        (⟨[], false⟩ : ObsState Nat Nat)) 2) = 1) :=
  disposal_cleanup_at_most_once ⟨[], false⟩ 2

/-- C10: when a Subscription created with both a disposal action and an
attached observer is disposed, the user-supplied disposal action always runs
before the synthetic terminal is delivered: the cleanup trace starts with the
disposal action (which never recurs), and for an unterminated observer the
trace is exactly the action followed by the Unsubscribed delivery. -/
theorem disposal_action_precedes_terminal {T E : Type} (o : ObsState T E) :
    (∃ rest, (disposalBody o).2 = SubEffect.disposalAction :: rest ∧
        SubEffect.disposalAction ∉ rest) ∧
    (o.terminated = false →
      (disposalBody o).2 =
        [SubEffect.disposalAction,
         SubEffect.delivered (Event.terminated Terminated.unsubscribed)]) := by
  by_cases ht : o.terminated = true
  · constructor
    · exact ⟨[], by simp [disposalBody, ht], by simp⟩
    · intro h
      rw [ht] at h
      cases h
  · constructor
    · refine ⟨[SubEffect.delivered (Event.terminated Terminated.unsubscribed)],
        by simp [disposalBody, ht], by simp⟩
    · intro _h
      simp [disposalBody, ht]

/-- Witness for C10: the cleanup trace of a fresh unterminated observer. -/
theorem disposal_action_precedes_terminal_witness :
    (∃ rest, (disposalBody (⟨[], false⟩ : ObsState Nat Nat)).2 =
        SubEffect.disposalAction :: rest ∧
        SubEffect.disposalAction ∉ rest) ∧
    ((⟨[], false⟩ : ObsState Nat Nat).terminated = false →
      (disposalBody (⟨[], false⟩ : ObsState Nat Nat)).2 =
        [SubEffect.disposalAction,
         SubEffect.delivered (Event.terminated Terminated.unsubscribed)]) :=
  disposal_action_precedes_terminal ⟨[], false⟩

/-- C8: the Delay operator's interposed observer hands every Next value and
the Completed terminal to the scheduler with the configured delay, delivering
downstream only when the scheduled task runs, while an Error terminal bypasses
the scheduler entirely and reaches the downstream observer immediately within
the same call: on_next and on_terminal(Completed) each append one task
scheduled with the configured delay and deliver nothing now; running such a
task performs the downstream delivery; on_terminal(Error) schedules nothing
and appends the error to the downstream log at once. -/
theorem delay_schedule_and_error_bypass {T E : Type} (s : DelayObserverSys T E)
    (v : T) (e : E) :
    (delayOnNext s v).pending = s.pending ++ [(s.delay, DelayTask.deliverNext v)] ∧
    (delayOnNext s v).delivered = s.delivered ∧
    (delayOnTerminal s Terminal.completed).pending =
      s.pending ++ [(s.delay, DelayTask.deliverTerminal Terminal.completed)] ∧
    (delayOnTerminal s Terminal.completed).delivered = s.delivered ∧
    (s.downstreamAlive = true →
      runDelayTask s (DelayTask.deliverNext v) =
        { s with delivered := s.delivered ++ [DownEvent.next v] }) ∧
    (s.downstreamAlive = true →
      runDelayTask s (DelayTask.deliverTerminal Terminal.completed) =
        { s with downstreamAlive := false,
                 delivered := s.delivered ++ [DownEvent.terminal Terminal.completed] }) ∧
    (delayOnTerminal s (Terminal.error e)).pending = s.pending ∧
    (s.downstreamAlive = true →
      (delayOnTerminal s (Terminal.error e)).delivered =
        s.delivered ++ [DownEvent.terminal (Terminal.error e)]) := by
  refine ⟨rfl, rfl, rfl, rfl, ?_, ?_, ?_, ?_⟩
  · intro h
    simp [runDelayTask, h]
  · intro h
    simp [runDelayTask, h]
  · by_cases h : s.downstreamAlive = true <;> simp [delayOnTerminal, h]
  · intro h
    simp [delayOnTerminal, h]

/-- Witness for C8: a live delay observer with a 50 tick delay schedules
Next 3 and Completed, and takes the error 9 immediately. -/
theorem delay_schedule_and_error_bypass_witness :
    ((⟨true, [], 50, []⟩ : DelayObserverSys Nat Nat).downstreamAlive = true) ∧
    ((delayOnNext (⟨true, [], 50, []⟩ : DelayObserverSys Nat Nat) 3).pending =
      [] ++ [(50, DelayTask.deliverNext 3)] ∧
    (delayOnNext (⟨true, [], 50, []⟩ : DelayObserverSys Nat Nat) 3).delivered = [] ∧
    (delayOnTerminal (⟨true, [], 50, []⟩ : DelayObserverSys Nat Nat)
        Terminal.completed).pending =
      [] ++ [(50, DelayTask.deliverTerminal Terminal.completed)] ∧
    (delayOnTerminal (⟨true, [], 50, []⟩ : DelayObserverSys Nat Nat)
        Terminal.completed).delivered = [] ∧
    ((⟨true, [], 50, []⟩ : DelayObserverSys Nat Nat).downstreamAlive = true →
      runDelayTask (⟨true, [], 50, []⟩ : DelayObserverSys Nat Nat)
          (DelayTask.deliverNext 3) =
        { (⟨true, [], 50, []⟩ : DelayObserverSys Nat Nat) with
            delivered := [] ++ [DownEvent.next 3] }) ∧
    ((⟨true, [], 50, []⟩ : DelayObserverSys Nat Nat).downstreamAlive = true →
      runDelayTask (⟨true, [], 50, []⟩ : DelayObserverSys Nat Nat)
          (DelayTask.deliverTerminal Terminal.completed) =
        { (⟨true, [], 50, []⟩ : DelayObserverSys Nat Nat) with
            downstreamAlive := false,
            delivered := [] ++ [DownEvent.terminal Terminal.completed] }) ∧
    (delayOnTerminal (⟨true, [], 50, []⟩ : DelayObserverSys Nat Nat)
        (Terminal.error 9)).pending = [] ∧
    ((⟨true, [], 50, []⟩ : DelayObserverSys Nat Nat).downstreamAlive = true →
      (delayOnTerminal (⟨true, [], 50, []⟩ : DelayObserverSys Nat Nat)
          (Terminal.error 9)).delivered =
        [] ++ [DownEvent.terminal (Terminal.error 9)])) :=
  ⟨by decide, delay_schedule_and_error_bypass ⟨true, [], 50, []⟩ 3 9⟩

/-- C9: map_value, map_error and map_next are total functions that preserve
terminal identity: mapping the value of a Terminated event returns the
identical terminal variant unchanged; mapping the error of a Next event
returns the identical Next payload unchanged; map_value and map_next apply f
only to a Next payload; map_error applies g only to an Error payload and
leaves the Unsubscribed/Cancelled and Completed variants unchanged. -/
theorem event_map_preserves_identity :
    ∀ (T E T2 E2 : Type) (f : T → T2) (g : E → E2) (v : T) (err : E)
      (tm : Terminated E) (tc : ObserverMod.Terminated E),
    Event.map_value (Event.next (E:=E) v) f = Event.next (f v) ∧
    Event.map_value (Event.terminated (T:=T) tm) f = Event.terminated tm ∧
    Event.map_error (Event.next (E:=E) v) g = Event.next v ∧
    Event.map_error (Event.terminated (T:=T) (Terminated.error err)) g =
      Event.terminated (Terminated.error (g err)) ∧
    Event.map_error (Event.terminated (T:=T) (Terminated.unsubscribed (E:=E))) g =
      Event.terminated Terminated.unsubscribed ∧
    Event.map_error (Event.terminated (T:=T) (Terminated.completed (E:=E))) g =
      Event.terminated Terminated.completed ∧
    ObserverMod.Event.map_next (ObserverMod.Event.next (E:=E) v) f =
      ObserverMod.Event.next (f v) ∧
    ObserverMod.Event.map_next (ObserverMod.Event.terminated (T:=T) tc) f =
      ObserverMod.Event.terminated tc ∧
    ObserverMod.Event.map_error (ObserverMod.Event.next (E:=E) v) g =
      ObserverMod.Event.next v ∧
    ObserverMod.Event.map_error
        (ObserverMod.Event.terminated (T:=T) (ObserverMod.Terminated.error err)) g =
      ObserverMod.Event.terminated (ObserverMod.Terminated.error (g err)) ∧
    ObserverMod.Event.map_error
        (ObserverMod.Event.terminated (T:=T) (ObserverMod.Terminated.cancelled (E:=E))) g =
      ObserverMod.Event.terminated ObserverMod.Terminated.cancelled ∧
    ObserverMod.Event.map_error
        (ObserverMod.Event.terminated (T:=T) (ObserverMod.Terminated.completed (E:=E))) g =
      ObserverMod.Event.terminated ObserverMod.Terminated.completed := by
  intros
  exact ⟨rfl, rfl, rfl, rfl, rfl, rfl, rfl, rfl, rfl, rfl, rfl, rfl⟩
